import Mathlib

/-!
Verification of the interactive REPL of the hissp repository
(`src/hissp/repl.py`) against its specification.

The file shallowly embeds:

* the session namespace (a Python dict mapping identifiers to values),
* Python exception values and the class-matching performed by a chain of
  `except` clauses,
* the external Lissp compiler, abstracted as a function from buffered
  source text to a compile result (return a generated-Python string, or
  raise an exception), exactly the interface `REPL.runsource` consumes,
* `REPL.runsource` from `src/hissp/repl.py`,
* the surrounding `code.InteractiveConsole` machinery (`push`,
  `runsource` of the base class, `runcode`) that `repl.py` inherits,
  which lives outside the repository sources; its execution-fault
  behaviour follows the specification of `SessionState.execute`.

All functions are computable, so every theorem with hypotheses has a
closed witness evaluated on concrete inputs.
-/

namespace Hissp

/-- Runtime values stored in the session namespace are abstracted as
naturals; the claims only need identity of bindings, never structure of
the bound values. -/
abbrev Value := Nat

/-- The session namespace: a Python dict, modelled as an association
list from identifier to value. -/
abbrev Namespace := List (String × Value)

/-- Dictionary lookup, `ns[name]`. -/
def nsLookup : Namespace → String → Option Value
  | [], _ => none
  | (k, v) :: rest, n => if k = n then some v else nsLookup rest n

/-- Dictionary assignment `ns[name] = v`: replaces an existing binding
in place or appends a new one, as a Python dict does. -/
def nsInsert : Namespace → String → Value → Namespace
  | [], n, v => [(n, v)]
  | (k, w) :: rest, n, v =>
    if k = n then (k, v) :: rest else (k, w) :: nsInsert rest n v

/-- Python exception values relevant to the REPL: the reader's
`SoftSyntaxError` (a subclass of `SyntaxError`), any other
`SyntaxError`, the asynchronous `KeyboardInterrupt` and `SystemExit`
signals, and a catch-all for every other `BaseException` subclass,
tagged with its class name and message. -/
inductive PyExc where
  | softSyntaxError (detail : String)
  | syntaxError (detail : String)
  | keyboardInterrupt
  | systemExit
  | other (name : String) (msg : String)
deriving DecidableEq

/-- Exception classes named by the `except` clauses of
`REPL.runsource`. -/
inductive ExcClass where
  | cSoftSyntaxError
  | cSyntaxError
  | cBaseException
deriving DecidableEq

/-- Whether an exception value is an instance of a clause's class,
following Python's exception hierarchy: `SoftSyntaxError` is a subclass
of `SyntaxError`, and every exception is a `BaseException` (including
`KeyboardInterrupt` and `SystemExit`, which do not derive from
`Exception`). -/
def PyExc.matches : PyExc → ExcClass → Bool
  | .softSyntaxError _, .cSoftSyntaxError => true
  | _, .cSoftSyntaxError => false
  | .softSyntaxError _, .cSyntaxError => true
  | .syntaxError _, .cSyntaxError => true
  | _, .cSyntaxError => false
  | _, .cBaseException => true

/-- The diagnostic text `self.showsyntaxerror()` writes for a syntax
error (content abstracted; only its identity and channel matter). -/
def syntaxErrorReport (e : PyExc) : String :=
  match e with
  | .softSyntaxError d => "SyntaxError: " ++ d
  | .syntaxError d => "SyntaxError: " ++ d
  | .keyboardInterrupt => "SyntaxError: KeyboardInterrupt"
  | .systemExit => "SyntaxError: SystemExit"
  | .other n m => "SyntaxError: " ++ n ++ ": " ++ m

/-- The full diagnostic trace `traceback.print_exc()` /
`self.showtraceback()` writes for an exception (content abstracted). -/
def tracebackReport (e : PyExc) : String :=
  match e with
  | .softSyntaxError d => "Traceback: SoftSyntaxError: " ++ d
  | .syntaxError d => "Traceback: SyntaxError: " ++ d
  | .keyboardInterrupt => "Traceback: KeyboardInterrupt"
  | .systemExit => "Traceback: SystemExit"
  | .other n m => "Traceback: " ++ n ++ ": " ++ m

/-- One statement of a compiled executable unit. Python's `exec` runs
statements sequentially; a statement either assigns a binding in the
globals dict or raises a runtime exception, which is all the claims
observe of execution. -/
inductive Stmt where
  | assign (name : String) (v : Value)
  | raiseE (e : PyExc)
deriving DecidableEq

/-- Sequential execution of a unit's statements over the namespace used
as both read and write scope (`exec(code, self.locals)`): assignments
mutate the dict one by one until the list ends or a statement raises;
on a raise the bindings already assigned are kept (Python's sequential
partial-effect semantics). Returns the resulting namespace and the
raised exception, if any. -/
def execStmts : List Stmt → Namespace → Namespace × Option PyExc
  | [], ns => (ns, none)
  | .assign n v :: rest, ns => execStmts rest (nsInsert ns n v)
  | .raiseE e :: _, ns => (ns, some e)

/-- Outcome of calling `self.lissp.compile(source)`: either the function
returns a generated-Python string, or it raises an exception. The
compiler itself (`hissp.reader.Lissp`) is an external collaborator; the
REPL consumes exactly this interface. -/
inductive CompileResult where
  | ok (py : String)
  | raiseE (e : PyExc)
deriving DecidableEq

/-- Outcome of `codeop`-style compilation of the generated Python inside
`code.InteractiveConsole.runsource`: a code object, `None` when the
Python text is a prefix of a valid statement, or a raised syntax-family
error (`SyntaxError`, `OverflowError`, `ValueError`, all handled by the
base class). -/
inductive PyCompileResult where
  | code (stmts : List Stmt)
  | incomplete
  | badSyntax (detail : String)
deriving DecidableEq

/-- Truthiness classes of the value `runsource` returns: `True`,
`False`, or the implicit `None` of a method falling off its end. -/
inductive PyRet where
  | pyTrue
  | pyFalse
  | pyNone
deriving DecidableEq

/-- Python truthiness of a `runsource` return value: only `True` is
truthy. -/
def PyRet.truthy : PyRet → Bool
  | .pyTrue => true
  | _ => false

/-- A call either returns a value or lets an exception escape. -/
inductive RunOutcome where
  | ret (r : PyRet)
  | exc (e : PyExc)
deriving DecidableEq

/-- Result of one `runsource` call: the namespace afterwards, the lines
written to the diagnostic channel (stderr), the outcome, and the
executable unit handed to the execution layer, when any. -/
structure RunResult where
  ns : Namespace
  stderr : List String
  outcome : RunOutcome
  executedUnit : Option String
deriving DecidableEq

/-- Execution of a compiled code object by the inherited
`code.InteractiveConsole.runcode`, which is outside the repository
sources. Modelled from the spec: `SessionState.execute` — a runtime
fault during execution is reported to the user (full trace on the
diagnostic channel) and is not re-raised; the namespace keeps the
bindings committed before the fault. -/
def runcode (stmts : List Stmt) (ns : Namespace) : Namespace × List String :=
  ((execStmts stmts ns).1,
    match (execStmts stmts ns).2 with
    | none => []
    | some e => [tracebackReport e])

/-- `code.InteractiveConsole.runsource` (the base-class method reached
by `super().runsource(...)`, outside the repository sources): compile
the Python text; on a syntax-family error report it and return `False`;
on `None` (incomplete Python) return `True`; otherwise run the code
object and return `False`. -/
def superRunsource (pycompile : String → PyCompileResult)
    (ns : Namespace) (py : String) : Namespace × List String × Bool :=
  match pycompile py with
  | .badSyntax d => (ns, [syntaxErrorReport (.syntaxError d)], false)
  | .incomplete => (ns, [], true)
  | .code stmts => ((runcode stmts ns).1, (runcode stmts ns).2, false)

/-- Expansion performed by `source.replace("\n", "\n... ")` in the trace
line: the pattern is the single character `'\n'`, so the replacement is
a character-wise substitution of `'\n'` by the five characters of
`"\n... "`. -/
def expandNl (s : String) : String :=
  String.mk (s.data.foldr
    (fun c acc =>
      if c = '\n' then '\n' :: '.' :: '.' :: '.' :: ' ' :: acc
      else c :: acc) [])

/-- The trace line `print(">>>", source.replace("\n", "\n... "),
file=sys.stderr)` echoing the generated Python on the diagnostic
channel. -/
def traceLine (py : String) : String := ">>> " ++ expandNl py

/-- `REPL.runsource` from `src/hissp/repl.py`: try
`self.lissp.compile(source)`; on `SoftSyntaxError` return `True`; on
any other `SyntaxError` report it and return `False`; on any other
`BaseException` print the full traceback and return `False`; on success
print the trace line to stderr, call `super().runsource(...)` and fall
off the end (returning `None`), discarding the base class's return
value. The `except` clauses are tried in order against the raised
exception's class; an exception matched by no clause would escape. -/
def runsource (compile : String → CompileResult)
    (pycompile : String → PyCompileResult)
    (ns : Namespace) (source : String) : RunResult :=
  match compile source with
  | .ok py =>
    { ns := (superRunsource pycompile ns py).1
      stderr := traceLine py :: (superRunsource pycompile ns py).2.1
      outcome := .ret .pyNone
      executedUnit := some py }
  | .raiseE e =>
    if e.matches .cSoftSyntaxError then
      { ns := ns, stderr := [], outcome := .ret .pyTrue, executedUnit := none }
    else if e.matches .cSyntaxError then
      { ns := ns, stderr := [syntaxErrorReport e], outcome := .ret .pyFalse,
        executedUnit := none }
    else if e.matches .cBaseException then
      { ns := ns, stderr := [tracebackReport e], outcome := .ret .pyFalse,
        executedUnit := none }
    else
      { ns := ns, stderr := [], outcome := .exc e, executedUnit := none }

/-- Session state the console loop carries between turns: the pending
input buffer (`self.buffer`, a list of lines) and the namespace
(`self.locals`). -/
structure ReplState where
  buffer : List String
  ns : Namespace
deriving DecidableEq

/-- Result of one `push` turn. -/
structure PushResult where
  state : ReplState
  stderr : List String
  outcome : RunOutcome
  executedUnit : Option String
deriving DecidableEq

/-- The primary prompt installed by `REPL.__init__`
(`sys.ps1 = "#> "`). -/
def ps1 : String := "#> "

/-- The continuation prompt installed by `REPL.__init__`
(`sys.ps2 = "#.."`). -/
def ps2 : String := "#.."

/-- Prompt shown before the next line, chosen by `interact` from the
truthiness of the last `push` result: continuation prompt when more
input is requested, primary prompt otherwise. -/
def promptFor (more : Bool) : String := if more then ps2 else ps1

/-- `code.InteractiveConsole.push` (outside the repository sources):
append the line to the buffer, join the buffer with newlines, call
`runsource` on the joined text, and reset the buffer unless the return
value is truthy. An exception escaping `runsource` skips the reset and
propagates. -/
def push (compile : String → CompileResult)
    (pycompile : String → PyCompileResult)
    (st : ReplState) (line : String) : PushResult :=
  let buf := st.buffer ++ [line]
  let source := String.intercalate "\n" buf
  let r := runsource compile pycompile st.ns source
  match r.outcome with
  | .ret v =>
    { state := { buffer := if v.truthy then buf else [], ns := r.ns }
      stderr := r.stderr
      outcome := .ret v
      executedUnit := r.executedUnit }
  | .exc e =>
    { state := { buffer := buf, ns := r.ns }
      stderr := r.stderr
      outcome := .exc e
      executedUnit := r.executedUnit }

/-- Several consecutive turns: fold `push` over a list of input lines,
keeping only the resulting state. -/
def pushList (compile : String → CompileResult)
    (pycompile : String → PyCompileResult)
    (st : ReplState) : List String → ReplState
  | [] => st
  | l :: rest =>
    pushList compile pycompile (push compile pycompile st l).state rest

/-- Session construction performed by `main` and `REPL.__init__`: a
fresh `__main__` module namespace is created, handed to the REPL as its
`locals`, and seeded with the `_macro_` binding
(`repl.locals['_macro_'] = SimpleNamespace(...)`) before the loop runs.
The macro namespace object is abstracted as a value. -/
def mainInit (macroVal : Value) : ReplState :=
  { buffer := [], ns := nsInsert [] "_macro_" macroVal }

/-- Names assigned by a unit's statements before its first raising
statement: exactly the bindings Python's `exec` has committed when the
fault fires. -/
def assignedBeforeFault : List Stmt → String → Bool
  | [], _ => false
  | .assign n _ :: rest, name => n == name || assignedBeforeFault rest name
  | .raiseE _ :: _, _ => false

/-- Every exception value is an instance of `BaseException`: the last
`except` clause of `REPL.runsource` matches any raised exception. -/
lemma matches_cBaseException (e : PyExc) : e.matches .cBaseException = true := by
  cases e <;> rfl

/-- C1: on a `Complete` compile outcome, `runsource` first emits exactly
one trace line echoing the generated executable form on the diagnostic
channel, then hands the unit to the execution layer with the session
namespace as both read and write scope, and the turn ends in the
terminal state — buffer cleared and primary prompt — rather than
requesting continuation. -/
theorem complete_turn_traces_executes_and_ends_terminal
    (compile : String → CompileResult) (pycompile : String → PyCompileResult)
    (st : ReplState) (line py : String)
    (h : compile (String.intercalate "\n" (st.buffer ++ [line])) = .ok py) :
    (push compile pycompile st line).stderr =
      traceLine py :: (superRunsource pycompile st.ns py).2.1
    ∧ (push compile pycompile st line).state.ns =
      (superRunsource pycompile st.ns py).1
    ∧ (push compile pycompile st line).executedUnit = some py
    ∧ (∀ stmts, pycompile py = .code stmts →
        (push compile pycompile st line).state.ns = (execStmts stmts st.ns).1)
    ∧ (push compile pycompile st line).outcome = .ret .pyNone
    ∧ (push compile pycompile st line).state.buffer = []
    ∧ promptFor (PyRet.truthy .pyNone) = ps1 := by
  refine ⟨?_, ?_, ?_, ?_, ?_, ?_, rfl⟩ <;>
    simp only [push, runsource, h, PyRet.truthy] <;>
    try rfl
  intro stmts hs
  simp [superRunsource, hs, runcode]

/-- C2: on an `Incomplete` compile outcome (the reader raises
`SoftSyntaxError`), `runsource` returns `True`, so the pending buffer is
kept with the new line appended and the loop switches to the
continuation prompt; nothing is written to the diagnostic channel and
nothing is executed. Moreover this is the only outcome that keeps the
buffer alive: a non-empty buffer after a turn implies the compile
attempt raised `SoftSyntaxError`. -/
theorem incomplete_turn_keeps_buffer_no_output
    (compile : String → CompileResult) (pycompile : String → PyCompileResult)
    (st : ReplState) (line d : String)
    (h : compile (String.intercalate "\n" (st.buffer ++ [line])) =
      .raiseE (.softSyntaxError d)) :
    ((push compile pycompile st line).outcome = .ret .pyTrue
    ∧ (push compile pycompile st line).state.buffer = st.buffer ++ [line]
    ∧ (push compile pycompile st line).state.ns = st.ns
    ∧ (push compile pycompile st line).stderr = []
    ∧ (push compile pycompile st line).executedUnit = none
    ∧ promptFor (PyRet.truthy .pyTrue) = ps2)
    ∧ (∀ (st2 : ReplState) (line2 : String),
        (push compile pycompile st2 line2).state.buffer ≠ [] →
        ∃ d2, compile (String.intercalate "\n" (st2.buffer ++ [line2])) =
          .raiseE (.softSyntaxError d2)) := by
  constructor
  · refine ⟨?_, ?_, ?_, ?_, ?_, rfl⟩ <;>
      simp [push, runsource, h, PyExc.matches, PyRet.truthy]
  · intro st2 line2 hne
    rcases hc : compile (String.intercalate "\n" (st2.buffer ++ [line2])) with
      py | e
    · exfalso
      apply hne
      simp [push, runsource, hc, PyRet.truthy]
    · cases e with
      | softSyntaxError d2 => exact ⟨d2, rfl⟩
      | syntaxError d2 =>
        exfalso; apply hne
        simp [push, runsource, hc, PyExc.matches, PyRet.truthy]
      | keyboardInterrupt =>
        exfalso; apply hne
        simp [push, runsource, hc, PyExc.matches, PyRet.truthy]
      | systemExit =>
        exfalso; apply hne
        simp [push, runsource, hc, PyExc.matches, PyRet.truthy]
      | other n m =>
        exfalso; apply hne
        simp [push, runsource, hc, PyExc.matches, PyRet.truthy]

/-- C3: on a `Malformed` compile outcome (the compiler raises a hard
`SyntaxError` that is not a `SoftSyntaxError`), `runsource` reports the
diagnostic on the diagnostic channel and returns `False`, so the buffer
is cleared and the loop returns to the primary prompt; nothing is
executed, the namespace is untouched, and the call returns normally —
the error is fully recovered, not fatal. -/
theorem malformed_turn_reports_clears_and_recovers
    (compile : String → CompileResult) (pycompile : String → PyCompileResult)
    (st : ReplState) (line d : String)
    (h : compile (String.intercalate "\n" (st.buffer ++ [line])) =
      .raiseE (.syntaxError d)) :
    (push compile pycompile st line).stderr =
      [syntaxErrorReport (.syntaxError d)]
    ∧ (push compile pycompile st line).outcome = .ret .pyFalse
    ∧ (push compile pycompile st line).state.buffer = []
    ∧ (push compile pycompile st line).state.ns = st.ns
    ∧ (push compile pycompile st line).executedUnit = none
    ∧ promptFor (PyRet.truthy .pyFalse) = ps1 := by
  refine ⟨?_, ?_, ?_, ?_, ?_, rfl⟩ <;>
    simp [push, runsource, h, PyExc.matches, PyRet.truthy]

/-- C4: any exception raised by the compile step that is neither a
`SoftSyntaxError` nor any other `SyntaxError` (an internal, unexpected
compiler fault) is caught inside `runsource`: its full diagnostic trace
is printed, `runsource` returns `False` so the buffer is cleared, the
namespace is untouched, nothing is executed, and the call returns
normally so the session survives. -/
theorem compiler_internal_fault_caught_and_recovered
    (compile : String → CompileResult) (pycompile : String → PyCompileResult)
    (st : ReplState) (line : String) (e : PyExc)
    (hcls : e.matches .cSyntaxError = false)
    (h : compile (String.intercalate "\n" (st.buffer ++ [line])) = .raiseE e) :
    (push compile pycompile st line).stderr = [tracebackReport e]
    ∧ (push compile pycompile st line).outcome = .ret .pyFalse
    ∧ (push compile pycompile st line).state.buffer = []
    ∧ (push compile pycompile st line).state.ns = st.ns
    ∧ (push compile pycompile st line).executedUnit = none := by
  have hsoft : e.matches .cSoftSyntaxError = false := by
    cases e <;> simp_all [PyExc.matches]
  refine ⟨?_, ?_, ?_, ?_, ?_⟩ <;>
    simp [push, runsource, h, hsoft, hcls, matches_cBaseException, PyRet.truthy]

/-- C9: whenever the compile step succeeds, `runsource` falls off the
end of the method and returns `None` — a falsy value — unconditionally,
discarding the boolean returned by the inherited execution step; so a
`Complete` compile outcome can never request continuation, even when
the execution layer classifies the generated Python as incomplete and
would itself have returned `True`. -/
theorem complete_returns_none_discarding_exec_verdict
    (compile : String → CompileResult) (pycompile : String → PyCompileResult)
    (ns : Namespace) (source py : String)
    (h : compile source = .ok py) :
    (runsource compile pycompile ns source).outcome = .ret .pyNone
    ∧ PyRet.truthy .pyNone = false
    ∧ (pycompile py = .incomplete →
        (superRunsource pycompile ns py).2.2 = true
        ∧ (runsource compile pycompile ns source).outcome = .ret .pyNone) := by
  refine ⟨by simp [runsource, h], rfl, fun hinc => ⟨?_, ?_⟩⟩
  · simp [superRunsource, hinc]
  · simp [runsource, h]

/-- C10: the last handler of the compile step catches every exception
class whatsoever — the clause chain `SoftSyntaxError`, `SyntaxError`,
`BaseException` covers all exception values, including
`KeyboardInterrupt` and `SystemExit` raised during compilation — so
`runsource` always returns normally and no fault raised inside the
compile step can escape and end the session; for the interrupt and exit
signals in particular the trace is printed and `False` is returned. -/
theorem compile_step_catches_every_exception_class
    (compile : String → CompileResult) (pycompile : String → PyCompileResult)
    (ns : Namespace) (source : String) (e : PyExc)
    (h : compile source = .raiseE e) :
    (∃ v, (runsource compile pycompile ns source).outcome = .ret v)
    ∧ (e = .keyboardInterrupt ∨ e = .systemExit →
        (runsource compile pycompile ns source).outcome = .ret .pyFalse
        ∧ (runsource compile pycompile ns source).stderr = [tracebackReport e]
        ∧ (runsource compile pycompile ns source).ns = ns) := by
  constructor
  · cases e with
    | softSyntaxError d =>
      exact ⟨.pyTrue, by simp [runsource, h, PyExc.matches]⟩
    | syntaxError d =>
      exact ⟨.pyFalse, by simp [runsource, h, PyExc.matches]⟩
    | keyboardInterrupt =>
      exact ⟨.pyFalse, by simp [runsource, h, PyExc.matches]⟩
    | systemExit =>
      exact ⟨.pyFalse, by simp [runsource, h, PyExc.matches]⟩
    | other n m =>
      exact ⟨.pyFalse, by simp [runsource, h, PyExc.matches]⟩
  · rintro (rfl | rfl) <;>
      refine ⟨?_, ?_, ?_⟩ <;>
      simp [runsource, h, PyExc.matches]

/-- Looking a name up after an assignment finds the assigned value for
that name and is otherwise unchanged. -/
lemma nsLookup_nsInsert (ns : Namespace) (k : String) (v : Value) (n : String) :
    nsLookup (nsInsert ns k v) n = if k = n then some v else nsLookup ns n := by
  induction ns with
  | nil => simp [nsInsert, nsLookup]
  | cons hd tl ih =>
    obtain ⟨k2, w⟩ := hd
    simp only [nsInsert]
    by_cases hk : k2 = k
    · subst hk
      simp only [if_pos rfl, nsLookup]
      by_cases hn : k2 = n <;> simp [hn]
    · simp only [if_neg hk, nsLookup, ih]
      by_cases hn : k2 = n
      · subst hn
        have hkn : ¬ k = k2 := fun hh => hk hh.symm
        simp [hkn]
      · simp [hn]

/-- Assignment never removes a binding: a name bound before `ns[k] = v`
is still bound afterwards. -/
lemma nsLookup_nsInsert_isSome (ns : Namespace) (k : String) (v : Value)
    (n : String) (h : (nsLookup ns n).isSome = true) :
    (nsLookup (nsInsert ns k v) n).isSome = true := by
  rw [nsLookup_nsInsert]
  by_cases hk : k = n <;> simp [hk, h]

/-- Executing a unit never removes a binding from the namespace,
whether or not the unit raises: execution only performs assignments up
to the first fault. -/
lemma execStmts_preserves_isSome (stmts : List Stmt) :
    ∀ (ns : Namespace) (n : String), (nsLookup ns n).isSome = true →
    (nsLookup (execStmts stmts ns).1 n).isSome = true := by
  induction stmts with
  | nil => intro ns n h; simpa [execStmts]
  | cons s rest ih =>
    intro ns n h
    cases s with
    | assign k v =>
      simp only [execStmts]
      exact ih _ n (nsLookup_nsInsert_isSome ns k v n h)
    | raiseE e => simpa [execStmts]

/-- A name assigned before the unit's first raising statement is bound
in the namespace execution leaves behind. -/
lemma assignedBeforeFault_isSome (stmts : List Stmt) :
    ∀ (ns : Namespace) (n : String), assignedBeforeFault stmts n = true →
    (nsLookup (execStmts stmts ns).1 n).isSome = true := by
  induction stmts with
  | nil => intro ns n h; simp [assignedBeforeFault] at h
  | cons s rest ih =>
    intro ns n h
    cases s with
    | assign k v =>
      simp only [assignedBeforeFault, Bool.or_eq_true, beq_iff_eq] at h
      simp only [execStmts]
      rcases h with h | h
      · subst h
        apply execStmts_preserves_isSome
        simp [nsLookup_nsInsert]
      · exact ih _ n h
    | raiseE e => simp [assignedBeforeFault] at h

/-- One turn never removes a binding from the namespace, whatever the
compile outcome and whatever execution does. -/
lemma push_preserves_isSome (compile : String → CompileResult)
    (pycompile : String → PyCompileResult) (st : ReplState) (line n : String)
    (h : (nsLookup st.ns n).isSome = true) :
    (nsLookup (push compile pycompile st line).state.ns n).isSome = true := by
  rcases hc : compile (String.intercalate "\n" (st.buffer ++ [line])) with py | e
  · rcases hp : pycompile py with stmts | _ | d
    · simp only [push, runsource, hc, superRunsource, hp, runcode]
      exact execStmts_preserves_isSome stmts st.ns n h
    · simpa [push, runsource, hc, superRunsource, hp]
    · simpa [push, runsource, hc, superRunsource, hp]
  · cases e <;>
      simpa [push, runsource, hc, PyExc.matches, PyRet.truthy]

/-- A whole sequence of turns never removes a binding from the
namespace. -/
lemma pushList_preserves_isSome (compile : String → CompileResult)
    (pycompile : String → PyCompileResult) :
    ∀ (lines : List String) (st : ReplState) (n : String),
    (nsLookup st.ns n).isSome = true →
    (nsLookup (pushList compile pycompile st lines).ns n).isSome = true := by
  intro lines
  induction lines with
  | nil => intro st n h; simpa [pushList]
  | cons l rest ih =>
    intro st n h
    simp only [pushList]
    exact ih _ n (push_preserves_isSome compile pycompile st l n h)

/-- While every compile attempt on the growing buffer raises
`SoftSyntaxError`, the turns accumulate the lines in order in the
pending buffer and leave the namespace untouched. -/
lemma pushList_all_soft (compile : String → CompileResult)
    (pycompile : String → PyCompileResult) :
    ∀ (lines pre : List String) (ns : Namespace),
    (∀ i, i < lines.length → ∃ d,
      compile (String.intercalate "\n" (pre ++ lines.take (i+1))) =
        .raiseE (.softSyntaxError d)) →
    pushList compile pycompile ⟨pre, ns⟩ lines = ⟨pre ++ lines, ns⟩ := by
  intro lines
  induction lines with
  | nil => intro pre ns _; simp [pushList]
  | cons l rest ih =>
    intro pre ns hsoft
    obtain ⟨d, hd⟩ := hsoft 0 (by simp)
    rw [List.take_succ_cons, List.take_zero] at hd
    have hstep : push compile pycompile ⟨pre, ns⟩ l =
        { state := ⟨pre ++ [l], ns⟩, stderr := [], outcome := .ret .pyTrue,
          executedUnit := none } := by
      simp [push, runsource, hd, PyExc.matches, PyRet.truthy]
    have hrest := ih (pre ++ [l]) ns (by
      intro i hi
      obtain ⟨d2, hd2⟩ := hsoft (i+1) (by simpa using Nat.succ_lt_succ hi)
      refine ⟨d2, ?_⟩
      rw [List.take_succ_cons] at hd2
      simpa [List.append_assoc] using hd2)
    simp only [pushList, hstep]
    rw [hrest]
    simp

/-- C5: after any `Malformed` outcome, and after any turn in which the
compile step produced an executable unit (so the unit was handed to the
execution layer), the pending buffer is empty before the next line is
accepted; conversely the buffer is non-empty after a turn only when
that turn's compile attempt classified `Incomplete` (raised
`SoftSyntaxError`). -/
theorem buffer_cleared_after_terminal_kept_only_on_incomplete
    (compile : String → CompileResult) (pycompile : String → PyCompileResult)
    (st : ReplState) (line : String) :
    (∀ d, compile (String.intercalate "\n" (st.buffer ++ [line])) =
        .raiseE (.syntaxError d) →
      (push compile pycompile st line).state.buffer = [])
    ∧ (∀ py, compile (String.intercalate "\n" (st.buffer ++ [line])) = .ok py →
      (push compile pycompile st line).state.buffer = [])
    ∧ ((push compile pycompile st line).state.buffer ≠ [] →
      ∃ d, compile (String.intercalate "\n" (st.buffer ++ [line])) =
        .raiseE (.softSyntaxError d)) := by
  refine ⟨?_, ?_, ?_⟩
  · intro d h
    simp [push, runsource, h, PyExc.matches, PyRet.truthy]
  · intro py h
    simp [push, runsource, h, PyRet.truthy]
  · intro hne
    rcases hc : compile (String.intercalate "\n" (st.buffer ++ [line])) with py | e
    · exfalso; apply hne
      simp [push, runsource, hc, PyRet.truthy]
    · cases e with
      | softSyntaxError d => exact ⟨d, rfl⟩
      | syntaxError d =>
        exfalso; apply hne
        simp [push, runsource, hc, PyExc.matches, PyRet.truthy]
      | keyboardInterrupt =>
        exfalso; apply hne
        simp [push, runsource, hc, PyExc.matches, PyRet.truthy]
      | systemExit =>
        exfalso; apply hne
        simp [push, runsource, hc, PyExc.matches, PyRet.truthy]
      | other nm m =>
        exfalso; apply hne
        simp [push, runsource, hc, PyExc.matches, PyRet.truthy]

/-- C6: when the compile attempts on the growing buffer classify
`Incomplete` on turns 1..k and `Complete` on turn k+1, turn k+1 hands
the execution layer exactly the unit produced by compiling the
newline-joined concatenation of all k+1 lines in one shot; the buffer
held every intermediate line at turn k+1 and is cleared afterwards. -/
theorem incomplete_prefixes_then_complete_runs_one_shot_compile
    (compile : String → CompileResult) (pycompile : String → PyCompileResult)
    (ns : Namespace) (lines : List String) (lastLine py : String)
    (hsoft : ∀ i, i < lines.length → ∃ d,
      compile (String.intercalate "\n" (lines.take (i+1))) =
        .raiseE (.softSyntaxError d))
    (hok : compile (String.intercalate "\n" (lines ++ [lastLine])) = .ok py) :
    (pushList compile pycompile ⟨[], ns⟩ lines).buffer = lines
    ∧ (push compile pycompile (pushList compile pycompile ⟨[], ns⟩ lines)
        lastLine).executedUnit = some py
    ∧ (push compile pycompile (pushList compile pycompile ⟨[], ns⟩ lines)
        lastLine).state.buffer = [] := by
  have hlist : pushList compile pycompile ⟨[], ns⟩ lines = ⟨lines, ns⟩ := by
    have hall := pushList_all_soft compile pycompile lines [] ns (by simpa using hsoft)
    simpa using hall
  refine ⟨by rw [hlist], ?_, ?_⟩ <;>
  · rw [hlist]
    simp [push, runsource, hok, PyRet.truthy]

/-- C7: the session namespace is created at session start pre-populated
with the seed `_macro_` binding and an empty buffer, and no sequence of
turns ever removes a binding from it: a name bound after turn N is
still resolvable after every later turn, whatever is compiled or
executed in between. -/
theorem namespace_seeded_and_bindings_persist
    (compile : String → CompileResult) (pycompile : String → PyCompileResult)
    (macroVal : Value) :
    (nsLookup (mainInit macroVal).ns "_macro_" = some macroVal
      ∧ (mainInit macroVal).buffer = [])
    ∧ (∀ (st : ReplState) (lines : List String) (name : String),
        (nsLookup st.ns name).isSome = true →
        (nsLookup (pushList compile pycompile st lines).ns name).isSome = true) := by
  refine ⟨⟨by simp [mainInit, nsInsert, nsLookup], rfl⟩, ?_⟩
  intro st lines name h
  exact pushList_preserves_isSome compile pycompile lines st name h

/-- C8: a runtime fault raised while executing a compiled unit is
reported (the full trace follows the trace line on the diagnostic
channel) but does not clear or corrupt the namespace: every binding
present before the turn and every binding the unit assigned before the
fault is still bound afterwards, and `runsource` returns normally so
the session keeps accepting input. -/
theorem runtime_fault_reported_bindings_survive
    (compile : String → CompileResult) (pycompile : String → PyCompileResult)
    (st : ReplState) (line py : String) (stmts : List Stmt)
    (hc : compile (String.intercalate "\n" (st.buffer ++ [line])) = .ok py)
    (hp : pycompile py = .code stmts) :
    (∀ name, (nsLookup st.ns name).isSome = true →
      (nsLookup (push compile pycompile st line).state.ns name).isSome = true)
    ∧ (∀ name, assignedBeforeFault stmts name = true →
      (nsLookup (push compile pycompile st line).state.ns name).isSome = true)
    ∧ (∀ e, (execStmts stmts st.ns).2 = some e →
      (push compile pycompile st line).stderr =
        [traceLine py, tracebackReport e]
      ∧ (push compile pycompile st line).outcome = .ret .pyNone) := by
  have hns : (push compile pycompile st line).state.ns =
      (execStmts stmts st.ns).1 := by
    simp [push, runsource, hc, superRunsource, hp, runcode]
  refine ⟨?_, ?_, ?_⟩
  · intro name h
    rw [hns]
    exact execStmts_preserves_isSome stmts st.ns name h
  · intro name h
    rw [hns]
    exact assignedBeforeFault_isSome stmts st.ns name h
  · intro e he
    constructor
    · simp [push, runsource, hc, superRunsource, hp, runcode, he]
    · simp [push, runsource, hc]

/-- Witness for C1: a turn whose buffer compiles to `x = 1` ends with
the buffer cleared and a falsy (`None`) return value. -/
theorem complete_turn_traces_executes_and_ends_terminal_witness :
    (push (fun _ => CompileResult.ok "x = 1")
      (fun _ => PyCompileResult.code [Stmt.assign "x" 1])
      ⟨[], []⟩ "(define x 1)").state.buffer = []
    ∧ (push (fun _ => CompileResult.ok "x = 1")
      (fun _ => PyCompileResult.code [Stmt.assign "x" 1])
      ⟨[], []⟩ "(define x 1)").outcome = .ret .pyNone :=
  have h := complete_turn_traces_executes_and_ends_terminal
    (fun _ => CompileResult.ok "x = 1")
    (fun _ => PyCompileResult.code [Stmt.assign "x" 1])
    ⟨[], []⟩ "(define x 1)" "x = 1" rfl
  ⟨h.2.2.2.2.2.1, h.2.2.2.2.1⟩

/-- Witness for C2: a turn whose compile attempt raises
`SoftSyntaxError` keeps the line in the buffer and returns `True`. -/
theorem incomplete_turn_keeps_buffer_no_output_witness :
    (push (fun _ => CompileResult.raiseE (.softSyntaxError "eof"))
      (fun _ => PyCompileResult.incomplete)
      ⟨[], []⟩ "(").state.buffer = ["("]
    ∧ (push (fun _ => CompileResult.raiseE (.softSyntaxError "eof"))
      (fun _ => PyCompileResult.incomplete)
      ⟨[], []⟩ "(").outcome = .ret .pyTrue :=
  have h := incomplete_turn_keeps_buffer_no_output
    (fun _ => CompileResult.raiseE (.softSyntaxError "eof"))
    (fun _ => PyCompileResult.incomplete) ⟨[], []⟩ "(" "eof" rfl
  ⟨h.1.2.1, h.1.1⟩

/-- Witness for C3: a turn whose compile attempt raises a hard
`SyntaxError` reports it, clears the buffer and returns `False`. -/
theorem malformed_turn_reports_clears_and_recovers_witness :
    (push (fun _ => CompileResult.raiseE (.syntaxError "unopened"))
      (fun _ => PyCompileResult.incomplete)
      ⟨[], []⟩ ")").stderr = [syntaxErrorReport (.syntaxError "unopened")]
    ∧ (push (fun _ => CompileResult.raiseE (.syntaxError "unopened"))
      (fun _ => PyCompileResult.incomplete)
      ⟨[], []⟩ ")").state.buffer = [] :=
  have h := malformed_turn_reports_clears_and_recovers
    (fun _ => CompileResult.raiseE (.syntaxError "unopened"))
    (fun _ => PyCompileResult.incomplete) ⟨[], []⟩ ")" "unopened" rfl
  ⟨h.1, h.2.2.1⟩

/-- Witness for C4: a `ZeroDivisionError` escaping the compiler is
caught, its trace is printed, and the turn returns `False`. -/
theorem compiler_internal_fault_caught_and_recovered_witness :
    (push (fun _ => CompileResult.raiseE (.other "ZeroDivisionError" "division by zero"))
      (fun _ => PyCompileResult.incomplete)
      ⟨[], []⟩ "(1/0 macro)").stderr =
      [tracebackReport (.other "ZeroDivisionError" "division by zero")]
    ∧ (push (fun _ => CompileResult.raiseE (.other "ZeroDivisionError" "division by zero"))
      (fun _ => PyCompileResult.incomplete)
      ⟨[], []⟩ "(1/0 macro)").outcome = .ret .pyFalse :=
  have h := compiler_internal_fault_caught_and_recovered
    (fun _ => CompileResult.raiseE (.other "ZeroDivisionError" "division by zero"))
    (fun _ => PyCompileResult.incomplete) ⟨[], []⟩ "(1/0 macro)"
    (.other "ZeroDivisionError" "division by zero") rfl rfl
  ⟨h.1, h.2.1⟩

/-- Witness for C5: a turn whose buffer compiles successfully leaves
the buffer empty for the next line. -/
theorem buffer_cleared_after_terminal_kept_only_on_incomplete_witness :
    (push (fun _ => CompileResult.ok "pass")
      (fun _ => PyCompileResult.code [])
      ⟨[], []⟩ "()").state.buffer = [] :=
  (buffer_cleared_after_terminal_kept_only_on_incomplete
    (fun _ => CompileResult.ok "pass")
    (fun _ => PyCompileResult.code [])
    ⟨[], []⟩ "()").2.1 "pass" rfl

/-- Witness for C6: entering `(` then `)` across two turns — the first
classifying `Incomplete`, the joined text `(\n)` compiling to `()` —
executes exactly the one-shot compile of the concatenation. -/
theorem incomplete_prefixes_then_complete_runs_one_shot_compile_witness :
    (push
      (fun s => if s = "(" then CompileResult.raiseE (.softSyntaxError "eof")
        else if s = "(\n)" then CompileResult.ok "()"
        else CompileResult.raiseE (.syntaxError "bad"))
      (fun _ => PyCompileResult.code [])
      (pushList
        (fun s => if s = "(" then CompileResult.raiseE (.softSyntaxError "eof")
          else if s = "(\n)" then CompileResult.ok "()"
          else CompileResult.raiseE (.syntaxError "bad"))
        (fun _ => PyCompileResult.code []) ⟨[], []⟩ ["("])
      ")").executedUnit = some "()" :=
  (incomplete_prefixes_then_complete_runs_one_shot_compile
    (fun s => if s = "(" then CompileResult.raiseE (.softSyntaxError "eof")
      else if s = "(\n)" then CompileResult.ok "()"
      else CompileResult.raiseE (.syntaxError "bad"))
    (fun _ => PyCompileResult.code []) [] ["("] ")" "()"
    (by
      intro i hi
      refine ⟨"eof", ?_⟩
      rw [List.take_succ_cons, List.take_nil]
      decide)
    (by decide)).2.1

/-- Witness for C7: after one successful turn from the seeded session,
the seed binding `_macro_` is still resolvable. -/
theorem namespace_seeded_and_bindings_persist_witness :
    (nsLookup (pushList (fun _ => CompileResult.ok "pass")
      (fun _ => PyCompileResult.code [])
      (mainInit 7) ["(x)"]).ns "_macro_").isSome = true :=
  (namespace_seeded_and_bindings_persist
    (fun _ => CompileResult.ok "pass")
    (fun _ => PyCompileResult.code []) 7).2
    (mainInit 7) ["(x)"] "_macro_" (by decide)

/-- Witness for C8: a unit that binds `y` and then raises leaves `y`
bound after the fault. -/
theorem runtime_fault_reported_bindings_survive_witness :
    (nsLookup (push
      (fun _ => CompileResult.ok "y = 2\nboom")
      (fun _ => PyCompileResult.code
        [Stmt.assign "y" 2, Stmt.raiseE (.other "ValueError" "boom")])
      ⟨[], []⟩ "(boom)").state.ns "y").isSome = true :=
  (runtime_fault_reported_bindings_survive
    (fun _ => CompileResult.ok "y = 2\nboom")
    (fun _ => PyCompileResult.code
      [Stmt.assign "y" 2, Stmt.raiseE (.other "ValueError" "boom")])
    ⟨[], []⟩ "(boom)" "y = 2\nboom"
    [Stmt.assign "y" 2, Stmt.raiseE (.other "ValueError" "boom")]
    rfl rfl).2.1 "y" (by decide)

/-- Witness for C9: with an execution layer that classifies the
generated Python as incomplete, the turn still returns `None`. -/
theorem complete_returns_none_discarding_exec_verdict_witness :
    (runsource (fun _ => CompileResult.ok "if True:")
      (fun _ => PyCompileResult.incomplete)
      [] "(when True)").outcome = .ret .pyNone
    ∧ (superRunsource (fun _ => PyCompileResult.incomplete)
      [] "if True:").2.2 = true :=
  have h := complete_returns_none_discarding_exec_verdict
    (fun _ => CompileResult.ok "if True:")
    (fun _ => PyCompileResult.incomplete)
    [] "(when True)" "if True:" rfl
  ⟨h.1, (h.2.2 rfl).1⟩

/-- Witness for C10: `SystemExit` and `KeyboardInterrupt` raised during
compilation are both caught; each turn returns `False`. -/
theorem compile_step_catches_every_exception_class_witness :
    (runsource (fun _ => CompileResult.raiseE PyExc.systemExit)
      (fun _ => PyCompileResult.incomplete)
      [] "(exit)").outcome = .ret .pyFalse
    ∧ (runsource (fun _ => CompileResult.raiseE PyExc.keyboardInterrupt)
      (fun _ => PyCompileResult.incomplete)
      [] "(foo)").outcome = .ret .pyFalse :=
  ⟨((compile_step_catches_every_exception_class
      (fun _ => CompileResult.raiseE PyExc.systemExit)
      (fun _ => PyCompileResult.incomplete)
      [] "(exit)" PyExc.systemExit rfl).2 (Or.inr rfl)).1,
   ((compile_step_catches_every_exception_class
      (fun _ => CompileResult.raiseE PyExc.keyboardInterrupt)
      (fun _ => PyCompileResult.incomplete)
      [] "(foo)" PyExc.keyboardInterrupt rfl).2 (Or.inl rfl)).1⟩

end Hissp
